import Mathlib

/-!
Verification of the weather-tweet-bot content pipeline (`weatherappbot.py`).

The Python source is shallowly embedded: pure helpers become Lean functions
on `ℚ` (Python floats are modelled as exact rationals; every comparison and
format exercised below is far from a binary rounding boundary), `String` and
`List String`; the in-place mutation of the hashtag list performed by
`create_full_tweet_text` is modelled by explicit state passing (the function
returns the final value of its hashtag-list argument); the filesystem seen by
`tweet_post` is a `Finset String` of existing paths; the Flask endpoints are
modelled as functions of the results of their external collaborators
(weather fetch, forecast fetch, image rendering, Twitter client) together
with a trace recording which collaborators were invoked.

Non-ASCII characters in the source file are reproduced byte-for-byte via
unicode escapes (the file stores its emoji / degree signs in a damaged
encoding, e.g. the degree sign appears as the two characters "¬∞").
-/

set_option maxRecDepth 8000

/-- Number of characters Twitter allows; `TWITTER_MAX_CHARS = 280` in the source. -/
def TWITTER_MAX_CHARS : Nat := 280

/-- `CITY_TO_MONITOR = "Gachibowli"` in the source. -/
def CITY_TO_MONITOR : String := "Gachibowli"

/-- Python `int()` applied to a float: truncation toward zero.
(`Rat.floor` is used rather than `⌊·⌋` so that the definition evaluates by
kernel reduction; `ratFloor_eq_intFloor` below identifies the two.) -/
def pyTrunc (q : ℚ) : ℤ := if 0 ≤ q then q.floor else -(-q).floor

/-- `Rat.floor` agrees with the `Int.floor` of the `FloorRing ℚ` instance. -/
theorem ratFloor_eq_intFloor (q : ℚ) : q.floor = ⌊q⌋ := by
  rw [Rat.floor_def', Rat.floor_def]

/-- The 16 compass labels, in the order of the `dirs` list of
`degrees_to_cardinal`. -/
def dirs : List String :=
  ["N", "NNE", "NE", "ENE", "E", "ESE", "SE", "SSE",
   "S", "SSW", "SW", "WSW", "W", "WNW", "NW", "NNW"]

/-- `degrees_to_cardinal(d)`: `ix = int((d + 11.25) / 22.5)`, then
`dirs[ix % 16]`.  Python `%` on integers with positive modulus agrees with
`Int.emod`, whose result lies in `[0, 16)`, so the list index is always in
range; `getD` supplies an (unreachable) default. -/
def degrees_to_cardinal (d : ℚ) : String :=
  let ix := pyTrunc ((d + 11.25) / 22.5)
  dirs.getD (ix % 16).toNat "N"

/-- Base-10 digits of `n`, most significant first (`fuel` bounds recursion
depth; called with `fuel = n + 1` which always suffices). -/
def natDigitsAux : Nat → Nat → List Char
  | 0, _ => []
  | fuel + 1, n =>
      if n = 0 then [] else natDigitsAux fuel (n / 10) ++ [Char.ofNat (48 + n % 10)]

/-- Base-10 rendering of a natural number, as Python renders it. -/
def natToString (n : Nat) : String :=
  if n = 0 then "0" else String.mk (natDigitsAux (n + 1) n)

/-- Base-10 rendering of an integer, as Python renders it. -/
def intToString (i : ℤ) : String :=
  if i < 0 then "-" ++ natToString i.natAbs else natToString i.natAbs

/-- Round to the nearest integer, ties to even — the rounding used by
Python `format(x, '.0f')`. -/
def roundHalfEven (q : ℚ) : ℤ :=
  let f := q.floor
  let frac := q - f
  if frac < 1 / 2 then f
  else if 1 / 2 < frac then f + 1
  else if f % 2 = 0 then f else f + 1

/-- Python `f"{q:.0f}"` (for the exact rational model of the float). -/
def formatF0 (q : ℚ) : String :=
  let n := roundHalfEven q
  if n = 0 ∧ q < 0 then "-0" else intToString n

/-- Python `f"{q:.2f}"` (for the exact rational model of the float). -/
def formatF2 (q : ℚ) : String :=
  let n := roundHalfEven (q * 100)
  let sign := if n < 0 ∨ (n = 0 ∧ q < 0) then "-" else ""
  let a := n.natAbs
  sign ++ natToString (a / 100) ++ "." ++
    (if a % 100 < 10 then "0" else "") ++ natToString (a % 100)

/-- Python `str.lower()` (ASCII; every description the claims exercise is
ASCII). -/
def pyLower (s : String) : String := String.mk (s.data.map Char.toLower)

/-- Helper for `pyTitle`: the boolean records whether the previous character
was a letter. -/
def pyTitleAux : Bool → List Char → List Char
  | _, [] => []
  | prevAlpha, c :: cs =>
      let c2 := if c.isAlpha then (if prevAlpha then c.toLower else c.toUpper) else c
      c2 :: pyTitleAux c.isAlpha cs

/-- Python `str.title()` (ASCII): uppercase a letter that follows a
non-letter, lowercase a letter that follows a letter. -/
def pyTitle (s : String) : String := String.mk (pyTitleAux false s.data)

/-- Does the character list `l` start with `pat`? -/
def listStarts : List Char → List Char → Bool
  | [], _ => true
  | _ :: _, [] => false
  | p :: ps, c :: cs => p = c && listStarts ps cs

/-- Does `l` contain `pat` as a contiguous sublist? -/
def listHasSub (pat : List Char) : List Char → Bool
  | [] => listStarts pat []
  | c :: cs => listStarts pat (c :: cs) || listHasSub pat cs

/-- Python substring test `pat in s`. -/
def strContains (s pat : String) : Bool := listHasSub pat.data s.data

/-! ## Data model

`weather_data` is a JSON document; the composer reads, via chained `.get`
calls with defaults, exactly the fields below.  A missing nested dictionary
and a missing leaf both produce the same default (`0` resp. `"N/A"`/`""`),
so each field is modelled as one `Option`. -/

/-- The fields of the weather document the pipeline reads.  Numbers are
modelled as exact rationals. -/
structure WeatherData where
  description : Option String
  temp : Option ℚ
  feels_like : Option ℚ
  humidity : Option ℚ
  wind_speed : Option ℚ
  wind_deg : Option ℚ
  rain_1h : Option ℚ

/-- `generate_dynamic_hashtags(weather_data, current_day)`.  The source
accumulates the tags in a Python `set` and returns `list(set)`; every literal
it can insert is distinct, so the set never deduplicates, and only the
iteration order of the result is unspecified.  The model returns the tags in
insertion order (membership, which the claims are about, is
order-independent). -/
def generate_dynamic_hashtags (weather_data : WeatherData) (current_day : String) :
    List String :=
  let temp_celsius := weather_data.temp.getD 0
  let sky_description := pyLower (weather_data.description.getD "")
  let wind_speed_kmh := weather_data.wind_speed.getD 0 * 3.6
  let rain_1h := weather_data.rain_1h.getD 0
  ["#Gachibowli", "#Hyderabad", "#weatherupdate"]
    ++ (if rain_1h > 0 then ["#HyderabadRains", "#rain"] else [])
    ++ (if temp_celsius > 35 then ["#Heatwave"] else [])
    ++ (if strContains sky_description "clear" then ["#SunnyDay"] else [])
    ++ (if wind_speed_kmh > 25 then ["#windy"] else [])
    ++ (if current_day ∈ ["Saturday", "Sunday"] then ["#WeekendWeather"] else [])

/-- The body of `generate_tweet_content` for a present (truthy) weather
document.  The wall-clock values the source obtains from
`datetime.now(pytz.timezone('Asia/Kolkata'))` — weekday name, formatted time
and formatted date — are passed in as `current_day`, `time_str`, `date_str`.
The string literals reproduce the source file byte-for-byte (its non-ASCII
text is stored in a damaged encoding). -/
def generate_tweet_content_core (current_day time_str date_str : String)
    (weather_data : WeatherData) : List String × List String :=
  let sky_description := pyTitle (weather_data.description.getD "N/A")
  let temp_celsius := weather_data.temp.getD 0
  let feels_like_celsius := weather_data.feels_like.getD 0
  let humidity := weather_data.humidity.getD 0
  let wind_speed_kmh := weather_data.wind_speed.getD 0 * 3.6
  let wind_dir := degrees_to_cardinal (weather_data.wind_deg.getD 0)
  let rain_1h := weather_data.rain_1h.getD 0
  let rain_forecast :=
    if rain_1h > 0 then "‚òî Rain: " ++ formatF2 rain_1h ++ " mm/hr"
    else "‚òî No Rain"
  let closing_message :=
    if rain_1h > 0.5 then "Stay dry out there! üåßÔ∏è"
    else if temp_celsius > 35 then
      "It\x27s a hot one! Stay cool & hydrated. ‚òÄÔ∏è"
    else if temp_celsius < 18 then
      "Brr, it\x27s cool! Consider a light jacket. üß£"
    else "Enjoy your day! üòä"
  let greeting_line :=
    "Hello, " ++ CITY_TO_MONITOR ++ "!üëã, " ++ current_day
      ++ " weather at " ++ date_str ++ ", " ++ time_str ++ ":"
  let tweet_lines :=
    [greeting_line,
     "‚òÅÔ∏è Sky: " ++ sky_description,
     "üå°Ô∏è Temp: " ++ formatF0 temp_celsius
       ++ "¬∞C (feels: " ++ formatF0 feels_like_celsius ++ "¬∞C)",
     "üíß Humidity: " ++ formatF0 humidity ++ "%",
     "üí® Wind: " ++ formatF0 wind_speed_kmh
       ++ " km/h from the " ++ wind_dir,
     rain_forecast,
     "",
     closing_message]
  (tweet_lines, generate_dynamic_hashtags weather_data current_day)

/-- `generate_tweet_content(weather_data)`: `if not weather_data: return
None, None`, else the lines and hashtags of
`generate_tweet_content_core`.  `none` models a falsy (absent or empty)
document. -/
def generate_tweet_content (current_day time_str date_str : String)
    (weather_data : Option WeatherData) :
    Option (List String) × Option (List String) :=
  match weather_data with
  | none => (none, none)
  | some w =>
      let content := generate_tweet_content_core current_day time_str date_str w
      (some content.1, some content.2)

/-! ## Message budgeter -/

/-- The `while hashtags:` loop of `create_full_tweet_text`, with the mutable
`hashtags` list threaded explicitly: the result is the returned string
together with the final value of the caller's `hashtags` list (each
iteration that does not fit pops the last element).  The loop pops exactly
one element per iteration, so `fuel = hashtags.length` (as supplied by
`budget_loop`) makes the structural `fuel` recursion exhaust the list before
the fuel; the fuel-0 arm repeats the empty-list arm and is reached only on
the empty list. -/
def budget_loop_fuel : Nat → String → List String → String × List String
  | 0, body, _ => (body, [])
  | fuel + 1, body, hashtags =>
      match hashtags with
      | [] => (body, [])
      | h :: t =>
          -- full_tweet = f"{body}\n{' '.join(hashtags)}"
          if (body ++ "\n" ++ String.intercalate " " (h :: t)).length ≤ TWITTER_MAX_CHARS then
            (body ++ "\n" ++ String.intercalate " " (h :: t), h :: t)
          else
            budget_loop_fuel fuel body (h :: t).dropLast

/-- The `while hashtags:` loop of `create_full_tweet_text` entered with list
`hashtags`. -/
def budget_loop (body : String) (hashtags : List String) : String × List String :=
  budget_loop_fuel hashtags.length body hashtags

/-- `create_full_tweet_text(tweet_lines, hashtags)`: the returned string. -/
def create_full_tweet_text (tweet_lines hashtags : List String) : String :=
  (budget_loop (String.intercalate "\n" tweet_lines) hashtags).1

/-- The value of the caller's `hashtags` list after
`create_full_tweet_text(tweet_lines, hashtags)` returns (the source pops
elements off the caller's own list object). -/
def create_full_tweet_text_final_hashtags (tweet_lines hashtags : List String) :
    List String :=
  (budget_loop (String.intercalate "\n" tweet_lines) hashtags).2

/-! ## Publishing -/

/-- `tweet_post(tweet_text, image_path)`.  External outcomes are inputs:
`initOk` is whether building the two Twitter clients raises, `postOk`
whether the media upload and tweet creation succeed.  The filesystem is the
set `fs` of existing paths.  Result: the returned boolean and the filesystem
after the call.  The first `try` block (client construction) returns `False`
from its `except` arm with no `finally`; only the second `try` block carries
the `finally` that removes `image_path` when it is a truthy (non-empty) path
of an existing file. -/
def tweet_post (initOk postOk : Bool) (image_path : Option String)
    (fs : Finset String) : Bool × Finset String :=
  if initOk = false then
    (false, fs)
  else
    let fsAfter :=
      match image_path with
      | some p => if p ≠ "" ∧ p ∈ fs then fs.erase p else fs
      | none => fs
    (postOk, fsAfter)

/-! ## Endpoints

The two Flask routes are modelled as functions of the results their
external collaborators would return during the run, plus the wall-clock
strings.  A trace records the response and which collaborators were
actually invoked. -/

/-- `create_weather_image(current_weather, forecast_data)`: returns `None`
when either input is falsy; otherwise the result of the template/imgkit
rendering, abstracted as the collaborator outcome `renderResult` (`none` =
template missing or imgkit failure, `some path` = the temporary PNG
path). The forecast document is consumed only here, so its contents are
opaque (`Unit`). -/
def create_weather_image (current_weather : Option WeatherData)
    (forecast_data : Option Unit) (renderResult : Option String) : Option String :=
  match current_weather, forecast_data with
  | some _, some _ => renderResult
  | _, _ => none

/-- The collaborator outcomes and configuration visible to one invocation of
`run_tweet_task_endpoint`. -/
structure RunEnv where
  /-- `POST_TO_TWITTER_ENABLED` -/
  postEnabled : Bool
  /-- result of `get_weather(CITY_TO_MONITOR)` -/
  currentWeather : Option WeatherData
  /-- result of `get_forecast(CITY_TO_MONITOR)` -/
  forecastData : Option Unit
  /-- rendering outcome inside `create_weather_image` -/
  renderResult : Option String
  /-- whether building the Twitter clients in `tweet_post` succeeds -/
  initOk : Bool
  /-- whether the media upload + tweet creation in `tweet_post` succeeds -/
  postOk : Bool
  /-- filesystem contents at the start of the run -/
  fs : Finset String
  /-- `now.strftime('%A')` -/
  day : String
  /-- `now.strftime("%I:%M %p")` -/
  timeStr : String
  /-- `f"{now.day} {now.strftime('%B')}"` -/
  dateStr : String

/-- What one invocation of a route did: the `(body, status)` response and
which collaborators ran. -/
structure RunTrace where
  response : String × Nat
  renderCalled : Bool
  publishCalled : Bool
  /-- the budgeted text handed to `tweet_post`, when it was called -/
  tweetText : Option String

/-- `run_tweet_task_endpoint()` (route `/run-tweet-task`): refuse when
posting is disabled (403), short-circuit on missing fetch results (500) and
on a failed render (500), otherwise compose, budget and call `tweet_post`,
reporting its outcome. -/
def run_tweet_task_endpoint (env : RunEnv) : RunTrace :=
  if env.postEnabled = false then
    { response := ("Live tweet task skipped because POST_TO_TWITTER_ENABLED is false.", 403),
      renderCalled := false, publishCalled := false, tweetText := none }
  else
    match env.currentWeather, env.forecastData with
    | some cw, some fc =>
        match create_weather_image (some cw) (some fc) env.renderResult with
        | none =>
            { response := ("Failed to create weather image.", 500),
              renderCalled := true, publishCalled := false, tweetText := none }
        | some image_path =>
            let content := generate_tweet_content_core env.day env.timeStr env.dateStr cw
            let final_tweet_text := create_full_tweet_text content.1 content.2
            let success := (tweet_post env.initOk env.postOk (some image_path) env.fs).1
            { response :=
                if success then ("Tweet task executed successfully.", 200)
                else ("Tweet task execution failed.", 500),
              renderCalled := true, publishCalled := true,
              tweetText := some final_tweet_text }
    | _, _ =>
        { response := ("Failed to get weather or forecast data.", 500),
          renderCalled := false, publishCalled := false, tweetText := none }

/-- What one invocation of `/test-preview` produced: HTTP status, the
composed tweet text handed to the preview template (when reached), whether
`tweet_post` was invoked (the route never calls it), and the filesystem
after the run. -/
structure PreviewTrace where
  status : Nat
  tweet_text : Option String
  publishCalled : Bool
  fsAfter : Finset String

/-- `test_preview_endpoint()` (route `/test-preview`): same fetch / render
short-circuits as the live route, then reads and base64-encodes the image
(outcome `readOk`), deleting the temporary file in a `finally`, and renders
the preview template with the composed text — without ever calling
`tweet_post`. -/
def test_preview_endpoint (current_weather : Option WeatherData)
    (forecast_data : Option Unit) (renderResult : Option String) (readOk : Bool)
    (fs : Finset String) (day timeStr dateStr : String) : PreviewTrace :=
  match current_weather, forecast_data with
  | some cw, some fc =>
      match create_weather_image (some cw) (some fc) renderResult with
      | none => { status := 500, tweet_text := none, publishCalled := false, fsAfter := fs }
      | some image_path =>
          let fs2 := if image_path ∈ fs then fs.erase image_path else fs
          if readOk then
            let content := generate_tweet_content_core day timeStr dateStr cw
            { status := 200,
              tweet_text := some (create_full_tweet_text content.1 content.2),
              publishCalled := false, fsAfter := fs2 }
          else
            { status := 500, tweet_text := none, publishCalled := false, fsAfter := fs2 }
  | _, _ => { status := 500, tweet_text := none, publishCalled := false, fsAfter := fs }

/-! ## Properties of the message budgeter -/

/-- Master invariant of the budgeting loop, for any fuel that covers the
list: the final hashtag list is an initial segment of the input; the result
extends the body; a body within budget yields a result within budget; a body
over budget is returned unchanged; and an over-budget first attempt forces
at least one pop. -/
theorem budget_loop_fuel_spec (fuel : Nat) :
    ∀ (body : String) (hs : List String), hs.length ≤ fuel →
      (∃ k, k ≤ hs.length ∧ (budget_loop_fuel fuel body hs).2 = hs.take k) ∧
      (∃ s, (budget_loop_fuel fuel body hs).1 = body ++ s) ∧
      (body.length ≤ TWITTER_MAX_CHARS →
        (budget_loop_fuel fuel body hs).1.length ≤ TWITTER_MAX_CHARS) ∧
      (TWITTER_MAX_CHARS < body.length → (budget_loop_fuel fuel body hs).1 = body) ∧
      (hs ≠ [] →
        TWITTER_MAX_CHARS < (body ++ "\n" ++ String.intercalate " " hs).length →
        ∃ k, k < hs.length ∧ (budget_loop_fuel fuel body hs).2 = hs.take k) := by
  induction fuel with
  | zero =>
      intro body hs h
      have hnil : hs = [] := List.eq_nil_of_length_eq_zero (Nat.le_zero.mp h)
      subst hnil
      exact ⟨⟨0, Nat.le_refl 0, rfl⟩, ⟨"", (String.append_empty body).symm⟩,
        fun hle => hle, fun _ => rfl, fun hne _ => absurd rfl hne⟩
  | succ n ih =>
      intro body hs h
      cases hs with
      | nil =>
          exact ⟨⟨0, Nat.le_refl 0, rfl⟩, ⟨"", (String.append_empty body).symm⟩,
            fun hle => hle, fun _ => rfl, fun hne _ => absurd rfl hne⟩
      | cons hd tl =>
          have hlen1 : (hd :: tl).length = tl.length + 1 := rfl
          by_cases hfit :
              (body ++ "\n" ++ String.intercalate " " (hd :: tl)).length ≤ TWITTER_MAX_CHARS
          · have hres : budget_loop_fuel (n + 1) body (hd :: tl) =
                (body ++ "\n" ++ String.intercalate " " (hd :: tl), hd :: tl) := by
              simp only [budget_loop_fuel]
              rw [if_pos hfit]
            have hlow : body.length + 1 ≤
                (body ++ "\n" ++ String.intercalate " " (hd :: tl)).length := by
              rw [String.length_append, String.length_append]
              have hnl : ("\n" : String).length = 1 := rfl
              omega
            refine ⟨⟨(hd :: tl).length, Nat.le_refl _, ?_⟩,
              ⟨"\n" ++ String.intercalate " " (hd :: tl), ?_⟩,
              fun _ => ?_, fun hbig => absurd hfit (by omega),
              fun _ hover => absurd hfit (by omega)⟩
            · rw [hres]; exact (List.take_length _).symm
            · rw [hres]; exact String.append_assoc _ _ _
            · rw [hres]; exact hfit
          · have hres : budget_loop_fuel (n + 1) body (hd :: tl) =
                budget_loop_fuel n body (hd :: tl).dropLast := by
              simp only [budget_loop_fuel]
              rw [if_neg hfit]
            have hdl_len : (hd :: tl).dropLast.length = tl.length := by
              simp [List.length_dropLast]
            have hlen : (hd :: tl).dropLast.length ≤ n := by omega
            obtain ⟨⟨k, hk_le, hk_eq⟩, ⟨s, hs_eq⟩, h3, h2, _⟩ :=
              ih body (hd :: tl).dropLast hlen
            have hk_le' : k ≤ (hd :: tl).length - 1 := by omega
            have htake : (hd :: tl).dropLast.take k = (hd :: tl).take k := by
              rw [List.dropLast_eq_take, List.take_take]
              congr 1
              omega
            refine ⟨⟨k, by omega, ?_⟩, ⟨s, ?_⟩, fun hle => ?_, fun hbig => ?_,
              fun _ _ => ⟨k, by omega, ?_⟩⟩
            · rw [hres, hk_eq]; exact htake
            · rw [hres]; exact hs_eq
            · rw [hres]; exact h3 hle
            · rw [hres]; exact h2 hbig
            · rw [hres, hk_eq]; exact htake

/-- C1: `create_full_tweet_text` returns a string within the 280-character
budget whenever removing hashtags alone can achieve that (equivalently,
whenever the joined body itself is within budget); when even the bare body
exceeds the budget it returns the body unmodified; and in every case the
result extends the joined body lines, which are never removed or altered. -/
theorem create_full_tweet_text_budget (tweet_lines hashtags : List String) :
    ((String.intercalate "\n" tweet_lines).length ≤ TWITTER_MAX_CHARS →
      (create_full_tweet_text tweet_lines hashtags).length ≤ TWITTER_MAX_CHARS) ∧
    (TWITTER_MAX_CHARS < (String.intercalate "\n" tweet_lines).length →
      create_full_tweet_text tweet_lines hashtags = String.intercalate "\n" tweet_lines) ∧
    (∃ s, create_full_tweet_text tweet_lines hashtags =
      String.intercalate "\n" tweet_lines ++ s) := by
  obtain ⟨_, hext, hfits, hbig, _⟩ :=
    budget_loop_fuel_spec hashtags.length (String.intercalate "\n" tweet_lines) hashtags
      (Nat.le_refl _)
  exact ⟨hfits, hbig, hext⟩

/-- Witness for C1 at a concrete input. -/
theorem create_full_tweet_text_budget_witness :
    (create_full_tweet_text ["hi there"] ["#a"]).length ≤ TWITTER_MAX_CHARS :=
  (create_full_tweet_text_budget ["hi there"] ["#a"]).1 (by decide)

/-- C10: when the body plus all hashtags exceeds the budget, the loop pops
elements off the caller's own `hashtags` list (modelled by the returned
final list): afterwards that list is a proper initial segment of the
original, so the trimmed hashtags are gone from it. -/
theorem create_full_tweet_text_mutates_hashtags (tweet_lines hashtags : List String)
    (hne : hashtags ≠ [])
    (hover : TWITTER_MAX_CHARS <
      (String.intercalate "\n" tweet_lines ++ "\n" ++
        String.intercalate " " hashtags).length) :
    ∃ k, k < hashtags.length ∧
      create_full_tweet_text_final_hashtags tweet_lines hashtags = hashtags.take k := by
  obtain ⟨_, _, _, _, hpop⟩ :=
    budget_loop_fuel_spec hashtags.length (String.intercalate "\n" tweet_lines) hashtags
      (Nat.le_refl _)
  exact hpop hne hover

/-- Witness for C10 at a concrete input (a 300-character body line). -/
theorem create_full_tweet_text_mutates_hashtags_witness :
    ∃ k, k < (["#x"] : List String).length ∧
      create_full_tweet_text_final_hashtags [String.mk (List.replicate 300 'a')] ["#x"] =
        (["#x"] : List String).take k :=
  create_full_tweet_text_mutates_hashtags [String.mk (List.replicate 300 'a')] ["#x"]
    (by decide) (by decide)

/-! ## Properties of the cardinal direction resolver -/

/-- C5 counterexample: periodicity fails for negative degrees, because
Python `int()` truncates toward zero while the wrap-around arithmetic
needs a floor: `degrees_to_cardinal(-30)` is `"N"` but
`degrees_to_cardinal(-30 + 360)` is `"NNW"`. -/
theorem degrees_to_cardinal_not_periodic :
    degrees_to_cardinal (-30) ≠ degrees_to_cardinal (-30 + 360 * 1) := by
  with_unfolding_all decide

/-- C5 amended: the resolver is 360°-periodic on all degree values `d ≥ 0`
(truncation toward zero agrees with floor there), for any integer number of
full turns that keeps the shifted argument non-negative. -/
theorem degrees_to_cardinal_periodic (d : ℚ) (k : ℤ) (hd : 0 ≤ d)
    (hdk : 0 ≤ d + 360 * (k : ℚ)) :
    degrees_to_cardinal (d + 360 * (k : ℚ)) = degrees_to_cardinal d := by
  have hq1 : (0 : ℚ) ≤ (d + 11.25) / 22.5 := by positivity
  have hq2 : (0 : ℚ) ≤ (d + 360 * (k : ℚ) + 11.25) / 22.5 := by positivity
  have harg : (d + 360 * (k : ℚ) + 11.25) / 22.5 =
      (d + 11.25) / 22.5 + ((16 * k : ℤ) : ℚ) := by
    push_cast
    ring
  have hmain : pyTrunc ((d + 360 * (k : ℚ) + 11.25) / 22.5) % 16 =
      pyTrunc ((d + 11.25) / 22.5) % 16 := by
    unfold pyTrunc
    rw [if_pos hq1, if_pos hq2, ratFloor_eq_intFloor, ratFloor_eq_intFloor,
      harg, Int.floor_add_int]
    exact Int.add_mul_emod_self_left ⌊(d + 11.25) / 22.5⌋ 16 k
  simp only [degrees_to_cardinal]
  rw [hmain]

/-- Witness for the amended C5 at a concrete input. -/
theorem degrees_to_cardinal_periodic_witness :
    degrees_to_cardinal ((45 : ℚ) + 360 * ((2 : ℤ) : ℚ)) = degrees_to_cardinal 45 :=
  degrees_to_cardinal_periodic 45 2 (by norm_num) (by norm_num)

/-! ## Properties of `tweet_post` cleanup -/

/-- C2 counterexample: when the Twitter clients fail to initialize,
`tweet_post` returns `False` from the first `try` block, whose `except` arm
has no `finally`: the temporary image file is NOT deleted on that exit
path. -/
theorem tweet_post_init_failure_keeps_file :
    (tweet_post false true (some "/tmp/weather.png") {"/tmp/weather.png"}).2 =
      {"/tmp/weather.png"} ∧
    "/tmp/weather.png" ∈
      (tweet_post false true (some "/tmp/weather.png") {"/tmp/weather.png"}).2 := by
  exact ⟨rfl, by decide⟩

/-- C2 amended: once client initialization has succeeded, the `finally` of
the posting `try` block removes the (non-empty-named) image file before
`tweet_post` returns, whether the post succeeded or failed; but when client
initialization fails, the function returns with the filesystem untouched. -/
theorem tweet_post_cleanup (postOk q : Bool) (p : String) (fs : Finset String)
    (hp : p ≠ "") :
    p ∉ (tweet_post true postOk (some p) fs).2 ∧
    (tweet_post false q (some p) fs).2 = fs := by
  refine ⟨?_, rfl⟩
  by_cases hmem : p ∈ fs
  · simp [tweet_post, hp, hmem]
  · simp [tweet_post, hp, hmem]

/-- Witness for the amended C2 at a concrete input. -/
theorem tweet_post_cleanup_witness :
    "/tmp/w.png" ∉ (tweet_post true true (some "/tmp/w.png") {"/tmp/w.png"}).2 ∧
    (tweet_post false true (some "/tmp/w.png") {"/tmp/w.png"}).2 = {"/tmp/w.png"} :=
  tweet_post_cleanup true true "/tmp/w.png" {"/tmp/w.png"} (by decide)

/-! ## Properties of the content composer -/

/-- C3 counterexample: on an absent weather document the composer returns
the pair `(None, None)` — no single-line error placeholder and no
error-sentinel tag set are produced. -/
theorem generate_tweet_content_absent_counterexample :
    generate_tweet_content "Monday" "10:00 AM" "1 January" none = (none, none) := rfl

/-- C3 amended: on an absent weather document `generate_tweet_content`
returns the absent sentinel `(None, None)` for both lines and hashtags
(short-circuiting the pipeline); on a present document it returns
non-empty lines together with a hashtag list. -/
theorem generate_tweet_content_absent_amended (current_day time_str date_str : String)
    (w : WeatherData) :
    generate_tweet_content current_day time_str date_str none = (none, none) ∧
    ∃ lines tags, generate_tweet_content current_day time_str date_str (some w) =
      (some lines, some tags) ∧ lines ≠ [] := by
  refine ⟨rfl, _, _, rfl, ?_⟩
  simp [generate_tweet_content_core]

/-! ## Properties of the hashtag engine -/

/-- The C4 snapshot: temp 36 °C, no rain, wind 10 m/s, description
"clear sky" (feels-like, humidity and wind direction play no role). -/
def c4_weather : WeatherData :=
  { description := some "clear sky", temp := some 36, feels_like := none,
    humidity := none, wind_speed := some 10, wind_deg := none, rain_1h := some 0 }

/-- C4 counterexample: at wind speed 10 m/s the ×3.6 conversion gives
36 km/h > 25, so the windy tag IS included, contradicting the claim that it
is absent. -/
theorem generate_dynamic_hashtags_windy_included :
    "#windy" ∈ generate_dynamic_hashtags c4_weather "Saturday" := by
  with_unfolding_all decide

/-- C4 amended: for the given snapshot the hashtag engine emits the
heatwave, sunny and weekend tags, and also the windy tag (10 m/s × 3.6 =
36 km/h > 25), while no rain tag is emitted. -/
theorem generate_dynamic_hashtags_c4 :
    "#Heatwave" ∈ generate_dynamic_hashtags c4_weather "Saturday" ∧
    "#SunnyDay" ∈ generate_dynamic_hashtags c4_weather "Saturday" ∧
    "#WeekendWeather" ∈ generate_dynamic_hashtags c4_weather "Saturday" ∧
    "#windy" ∈ generate_dynamic_hashtags c4_weather "Saturday" ∧
    "#HyderabadRains" ∉ generate_dynamic_hashtags c4_weather "Saturday" ∧
    "#rain" ∉ generate_dynamic_hashtags c4_weather "Saturday" := by
  with_unfolding_all decide

/-- The C8 snapshot: description "Clear", temp 36, feels-like 38, humidity
40, wind 3 m/s from 90°, no rain. -/
def c8_weather : WeatherData :=
  { description := some "Clear", temp := some 36, feels_like := some 38,
    humidity := some 40, wind_speed := some 3, wind_deg := some 90, rain_1h := some 0 }

/-- C8: for the given Saturday snapshot the composed lines carry, at their
fixed positions, the temperature line reading 36°C (feels: 38°C), the wind
line reading 11 km/h from the E (3 m/s × 3.6 = 10.8 → 11), the No-Rain
line, and the hot-weather closing remark (rain 0 ≤ 0.5, temp 36 > 35).
The expected strings are the source's literals, whose non-ASCII bytes the
file stores in its damaged encoding (e.g. `¬∞` for the degree sign). -/
theorem generate_tweet_content_c8 :
    ((generate_tweet_content_core "Saturday" "10:30 AM" "11 October" c8_weather).1[2]? =
      some "üå°Ô∏è Temp: 36¬∞C (feels: 38¬∞C)") ∧
    ((generate_tweet_content_core "Saturday" "10:30 AM" "11 October" c8_weather).1[4]? =
      some "üí® Wind: 11 km/h from the E") ∧
    ((generate_tweet_content_core "Saturday" "10:30 AM" "11 October" c8_weather).1[5]? =
      some "‚òî No Rain") ∧
    ((generate_tweet_content_core "Saturday" "10:30 AM" "11 October" c8_weather).1[7]? =
      some "It\x27s a hot one! Stay cool & hydrated. ‚òÄÔ∏è") := by
  have h36 : formatF0 (36 : ℚ) = "36" := by with_unfolding_all decide
  have h38 : formatF0 (38 : ℚ) = "38" := by with_unfolding_all decide
  have hwind : formatF0 ((3 : ℚ) * 3.6) = "11" := by with_unfolding_all decide
  have hwind2 : formatF0 ((54 : ℚ) / 5) = "11" := by with_unfolding_all decide
  have hdir : degrees_to_cardinal (90 : ℚ) = "E" := by with_unfolding_all decide
  refine ⟨?_, ?_, ?_, ?_⟩ <;>
    · norm_num [generate_tweet_content_core, h36, h38, hwind, hwind2, hdir, c8_weather]
      try decide

/-! ## Properties of the publish orchestrator -/

/-- C6: with posting enabled, an absent current-weather fetch result makes
`/run-tweet-task` answer the fetch-failure diagnostic with status 500, and
neither the image rendering nor `tweet_post` is invoked in that run. -/
theorem run_tweet_task_fetch_failure (env : RunEnv) (hen : env.postEnabled = true)
    (hcw : env.currentWeather = none) :
    (run_tweet_task_endpoint env).response = ("Failed to get weather or forecast data.", 500) ∧
    (run_tweet_task_endpoint env).renderCalled = false ∧
    (run_tweet_task_endpoint env).publishCalled = false := by
  cases hfc : env.forecastData <;>
    simp [run_tweet_task_endpoint, hen, hcw, hfc]

/-- A concrete environment for the C6 witness: posting enabled, current
weather absent, everything else healthy. -/
def c6_env : RunEnv :=
  { postEnabled := true, currentWeather := none, forecastData := some (),
    renderResult := some "/tmp/img.png", initOk := true, postOk := true,
    fs := ∅, day := "Monday", timeStr := "10:00 AM", dateStr := "1 January" }

/-- Witness for C6 at a concrete environment. -/
theorem run_tweet_task_fetch_failure_witness :
    (run_tweet_task_endpoint c6_env).response = ("Failed to get weather or forecast data.", 500) ∧
    (run_tweet_task_endpoint c6_env).renderCalled = false ∧
    (run_tweet_task_endpoint c6_env).publishCalled = false :=
  run_tweet_task_fetch_failure c6_env rfl rfl

/-- C7: with the posting flag disabled, `/run-tweet-task` answers the
skip message with status 403 — distinct from every failure outcome, all of
which use status 500 — and `tweet_post` is never invoked, regardless of how
the fetch, render and publish collaborators would have behaved. -/
theorem run_tweet_task_skipped (env : RunEnv) (hdis : env.postEnabled = false) :
    (run_tweet_task_endpoint env).response =
      ("Live tweet task skipped because POST_TO_TWITTER_ENABLED is false.", 403) ∧
    (run_tweet_task_endpoint env).publishCalled = false ∧
    (run_tweet_task_endpoint env).response.2 ≠ 500 := by
  simp [run_tweet_task_endpoint, hdis]

/-- A concrete weather snapshot for witness environments. -/
def sample_weather : WeatherData :=
  { description := some "haze", temp := some 30, feels_like := some 32,
    humidity := some 60, wind_speed := some 2, wind_deg := some 200, rain_1h := some 0 }

/-- A concrete environment for the C7 witness: fetch, render and posting
would all succeed, but the flag is disabled. -/
def c7_env : RunEnv :=
  { postEnabled := false, currentWeather := some sample_weather,
    forecastData := some (), renderResult := some "/tmp/img.png", initOk := true,
    postOk := true, fs := ∅, day := "Saturday", timeStr := "10:30 AM",
    dateStr := "11 October" }

/-- Witness for C7 at a concrete environment. -/
theorem run_tweet_task_skipped_witness :
    (run_tweet_task_endpoint c7_env).response =
      ("Live tweet task skipped because POST_TO_TWITTER_ENABLED is false.", 403) ∧
    (run_tweet_task_endpoint c7_env).publishCalled = false ∧
    (run_tweet_task_endpoint c7_env).response.2 ≠ 500 :=
  run_tweet_task_skipped c7_env rfl

/-- C9: two invocations of `/test-preview` against the same upstream fetch,
render and read outcomes (and the same wall clock) produce identical
composed tweet text, and no invocation ever calls `tweet_post`. -/
theorem test_preview_idempotent_no_publish
    (current_weather : Option WeatherData) (forecast_data : Option Unit)
    (renderResult : Option String) (readOk : Bool) (fs : Finset String)
    (day timeStr dateStr : String) (r1 r2 : PreviewTrace)
    (h1 : r1 = test_preview_endpoint current_weather forecast_data renderResult
      readOk fs day timeStr dateStr)
    (h2 : r2 = test_preview_endpoint current_weather forecast_data renderResult
      readOk fs day timeStr dateStr) :
    r1.tweet_text = r2.tweet_text ∧ r1.publishCalled = false ∧
    r2.publishCalled = false := by
  subst h1
  subst h2
  refine ⟨rfl, ?_, ?_⟩ <;>
    · cases current_weather <;> cases forecast_data <;> cases renderResult <;>
        cases readOk <;> rfl

/-- Witness for C9 at a concrete input. -/
theorem test_preview_idempotent_no_publish_witness :
    (test_preview_endpoint (some sample_weather) (some ()) (some "/tmp/prev.png") true
        (∅ : Finset String) "Monday" "09:00 AM" "6 October").tweet_text =
      (test_preview_endpoint (some sample_weather) (some ()) (some "/tmp/prev.png") true
        (∅ : Finset String) "Monday" "09:00 AM" "6 October").tweet_text ∧
    (test_preview_endpoint (some sample_weather) (some ()) (some "/tmp/prev.png") true
        (∅ : Finset String) "Monday" "09:00 AM" "6 October").publishCalled = false ∧
    (test_preview_endpoint (some sample_weather) (some ()) (some "/tmp/prev.png") true
        (∅ : Finset String) "Monday" "09:00 AM" "6 October").publishCalled = false :=
  test_preview_idempotent_no_publish (some sample_weather) (some ()) (some "/tmp/prev.png")
    true (∅ : Finset String) "Monday" "09:00 AM" "6 October" _ _ rfl rfl
